import Mathlib

/-!
# Verification of the cellsite antenna-database core

Shallow embedding of the antenna-resolution core of the `cellsite`
repository: the in-memory grid-index backend (`tests/celldb/dummydb.py`,
`AntennaDummyDatabase`) and the relational backend
(`celldb/pgdatabase.py`, `PgDatabase`), together with the duplicate
policies (`celldb/duplicate_policy.py`) and the CSV import
(`csv_import`).

Modelling conventions:
* Python floats are modelled as rationals (`ℚ`); machine timestamps as
  integers (`ℤ`, seconds).
* Euclidean distances are represented by their *squares* so everything
  stays in `ℚ`: for a nonnegative limit `L`, `dist ≤ L ↔ dist² ≤ L²`
  and sorting by distance equals sorting by squared distance.
* The SQL fragments that `PgDatabase` appends to its `qwhere` list are
  embedded as a small constraint syntax (`SqlWhere`) with an evaluator
  giving the standard SQL semantics of exactly those fragments
  (`x = v` on a NULL column is false, `ST_DWithin` is an inclusive
  distance bound, `%s` placeholders consume the parameter list
  positionally, and a query whose placeholder count differs from its
  parameter count fails to execute).
* The modules `cellsite.coord`, `cellsite.geography`,
  `cellsite.properties`, `cellsite.cell_identity` and
  `cellresolution` are not present under `src/`; the definitions taken
  from them are marked `Modelled from the spec:` in their doc comments.
-/

namespace Cellsite

/-- A point of the projected planar ("grid" / RD) coordinate system,
as used by `RdPoint` in the source. Coordinates are rationals. -/
structure RdP where
  x : ℚ
  y : ℚ
deriving DecidableEq, Repr

/-- Modelled from the spec: `distance(p1, p2)` is Euclidean distance on
the grid system (`cellsite.geography.euclidean_distance`, module absent
from `src/`). We represent the distance by its square so it stays
rational; all comparisons against a nonnegative limit `L` are made
against `L²`, and sorting by distance is sorting by this key. -/
def sqDist (p q : RdP) : ℚ := (p.x - q.x) ^ 2 + (p.y - q.y) ^ 2

/-- Python's built-in `round` on a rational value: round half to even. -/
def pyRound (q : ℚ) : ℤ :=
  let f := q.floor
  let r := q - (f : ℚ)
  if r < 1 / 2 then f
  else if 1 / 2 < r then f + 1
  else if f % 2 = 0 then f else f + 1

/-- Modelled from the spec: the polymorphic cell identity (§3 of the
spec; `cellsite.cell_identity` is absent from `src/`). A generic
global identity carries radio/mcc/mnc/lac/ci and — when the radio is
unknown — possibly also an eci; an LTE cell carries mcc/mnc/eci.
Unset fields are `none`. Identities are value objects compared
field-by-field. -/
inductive CellIdentity
  | cgi (radio : Option String) (mcc mnc lac ci eci : Option ℤ)
  | lte (radio : Option String) (mcc mnc eci : Option ℤ)
deriving DecidableEq, Repr

/-- Modelled from the spec: `CellIdentity.create(radio, mcc, mnc, lac,
ci, eci)` builds the variant selected by the radio technology; an
unknown (`None`) radio may carry both a legacy ci and an eci. -/
def CellIdentity.create (radio : Option String) (mcc mnc lac ci eci : Option ℤ) :
    Except String CellIdentity :=
  match radio with
  | some "GSM" => .ok (.cgi (some "GSM") mcc mnc lac ci none)
  | some "UMTS" => .ok (.cgi (some "UMTS") mcc mnc lac ci none)
  | some "LTE" => .ok (.lte (some "LTE") mcc mnc eci)
  | none => .ok (.cgi none mcc mnc lac ci eci)
  | some r => .error ("unsupported radio type: " ++ r)

/-- Modelled from the spec: the synthetic `Antenna` value used by the
grid-index backend (`cellsite.Antenna`, absent from `src/`), with the
fields the dummy database fills in. `coords` is the grid position. -/
structure Antenna where
  rdx : ℚ
  rdy : ℚ
  azimuth : ℤ
  zipcode : String
  city : String
  ci : CellIdentity
deriving DecidableEq, Repr

def Antenna.coords (a : Antenna) : RdP := ⟨a.rdx, a.rdy⟩

/-- Placeholder antenna for list lookups whose indices are known to be
in range (mirrors Python indexing, which would raise otherwise). -/
def defaultAntenna : Antenna :=
  ⟨0, 0, 0, "", "", .cgi none none none none none none⟩

instance : Inhabited Antenna := ⟨defaultAntenna⟩

/-! ## The grid-index (dummy) backend, `AntennaDummyDatabase` -/

/-- The grid of synthetic antennas built by
`AntennaDummyDatabase.__init__`: `nx × ny` positions spaced 500 units
apart starting at (100000, 100000), `per` antennas per position, eci
drawn from a running counter, azimuths from a per-position random
offset (modelled as the oracle `azi`, since `random.randint` has no
deterministic semantics). -/
def dummyAntennas (nx ny per : ℕ) (azi : ℕ → ℕ → ℤ) : List (List (List Antenna)) :=
  (List.range nx).map fun (x : ℕ) =>
    (List.range ny).map fun (y : ℕ) =>
      (List.range per).map fun (i : ℕ) =>
        { rdx := 100000 + 500 * (x : ℚ)
          rdy := 100000 + 500 * (y : ℚ)
          azimuth := (azi x y + 120 * (i : ℤ)) % 360
          zipcode := "1234XL"
          city := "Amsterdam"
          ci := .lte (some "LTE") none none (some (((x * ny + y) * per + i : ℕ) : ℤ)) }

/-- `np.stack([offsets, -offsets], -1).reshape(-1)[1:]` for
`offsets = np.arange n`: the alternating offset list `[0, 1, -1, 2, -2, …]`. -/
def altOffsets (n : ℕ) : List ℤ :=
  ((List.range n).flatMap fun o => [(o : ℤ), -(o : ℤ)]).drop 1

/-- The index choices visited along one axis: the centre index plus the
alternating offsets, restricted to the valid range `[0, n)`. -/
def choiceList (n : ℕ) (idx : ℤ) : List ℤ :=
  ((altOffsets n).map fun o => idx + o).filter fun v => 0 ≤ v && v < (n : ℤ)

/-- `dist > limit`, on squared distances (`limitExceeded` is the filter
`distance_limit_m is not None and dist > distance_limit_m`). -/
def limitExceeded (dLimit : Option ℚ) (sq : ℚ) : Bool :=
  match dLimit with
  | none => false
  | some L => decide (L ^ 2 < sq)

/-- The inner `for i in range(self._antennas_per_position)` loop of
`AntennaDummyDatabase.search`: a `break` on the distance check ends the
loop over the position, a matching `exclude` is skipped, every other
antenna is collected with its (squared) distance. -/
def scanPosition (coords : RdP) (dLimit : Option ℚ) (exclude : Option Antenna) :
    List Antenna → List (ℚ × Antenna)
  | [] => []
  | a :: rest =>
    let d := sqDist coords a.coords
    if limitExceeded dLimit d then []
    else if some a = exclude then scanPosition coords dLimit exclude rest
    else (d, a) :: scanPosition coords dLimit exclude rest

/-- The `for y in y_choices` loop over one grid column. -/
def scanColumn (coords : RdP) (dLimit : Option ℚ) (exclude : Option Antenna)
    (col : List (List Antenna)) (yIdx : ℤ) : List (ℚ × Antenna) :=
  (choiceList col.length yIdx).flatMap fun y =>
    scanPosition coords dLimit exclude (col.getD y.toNat [])

/-- The `for x in x_choices` loop of `AntennaDummyDatabase.search`.
When the antenna at `antennas[x][y_index]` is beyond the distance
limit the loop `break`s: no further x choice is visited. -/
def scanColumns (coords : RdP) (dLimit : Option ℚ) (exclude : Option Antenna)
    (grid : List (List (List Antenna))) (yIdx : ℤ) : List ℤ → List (ℚ × Antenna)
  | [] => []
  | x :: rest =>
    let col := grid.getD x.toNat []
    let probe := (col.getD yIdx.toNat []).headD defaultAntenna
    if limitExceeded dLimit (sqDist coords probe.coords) then []
    else
      scanColumn coords dLimit exclude col yIdx ++
        scanColumns coords dLimit exclude grid yIdx rest

/-- Stable insertion into a list sorted by `key` (an element is placed
before the first existing element with an equal or larger key, matching
the stability of Python's `sorted`). -/
def insertByKey {α : Type} (key : α → ℚ) (x : α) : List α → List α
  | [] => [x]
  | y :: ys => if key y < key x then y :: insertByKey key x ys else x :: y :: ys

/-- Stable sort by `key`, modelling `sorted(l, key=lambda x: x[0])`. -/
def sortByKey {α : Type} (key : α → ℚ) : List α → List α
  | [] => []
  | x :: xs => insertByKey key x (sortByKey key xs)

/-- Python's `l[:count_limit]` with an optional limit. -/
def takeOpt {α : Type} (o : Option ℕ) (l : List α) : List α :=
  match o with
  | none => l
  | some k => l.take k

/-- `AntennaDummyDatabase.search`: clamp the query point to a grid
index, traverse columns in alternating-offset order with the early
`break`, collect candidates within the distance limit (minus the
excluded antenna), sort by ascending distance and truncate.
`dLower` reflects the `distance_lower_limit_m` parameter, which the
source accepts but never reads. -/
def dummySearch (nx ny per : ℕ) (azi : ℕ → ℕ → ℤ) (coords : RdP)
    (dLimit dLower : Option ℚ) (countLimit : Option ℕ) (exclude : Option Antenna) :
    List Antenna :=
  let _ := dLower
  let grid := dummyAntennas nx ny per azi
  let xIdx : ℤ := min ((nx : ℤ) - 1) (max 0 (pyRound ((coords.x - 100000) / 500)))
  let yIdx : ℤ := min ((ny : ℤ) - 1) (max 0 (pyRound ((coords.y - 100000) / 500)))
  let cands := scanColumns coords dLimit exclude grid yIdx (choiceList nx xIdx)
  takeOpt countLimit ((sortByKey Prod.fst cands).map Prod.snd)

/-- All antennas of the dummy grid, in row-major construction order. -/
def allAntennas (nx ny per : ℕ) (azi : ℕ → ℕ → ℤ) : List Antenna :=
  ((dummyAntennas nx ny per azi).flatMap id).flatMap id

/-- The spec side of the grid-search refinement claim: an exhaustive
linear scan over all antennas with the same distance bound and
exclusion, sorted by ascending distance from the query point and
truncated to the count limit. -/
def linearScan (nx ny per : ℕ) (azi : ℕ → ℕ → ℤ) (coords : RdP)
    (dLimit : Option ℚ) (countLimit : Option ℕ) (exclude : Option Antenna) :
    List Antenna :=
  let cands := (allAntennas nx ny per azi).filterMap fun a =>
    let d := sqDist coords a.coords
    if limitExceeded dLimit d then none
    else if some a = exclude then none
    else some (d, a)
  takeOpt countLimit ((sortByKey Prod.fst cands).map Prod.snd)

end Cellsite

namespace Cellsite

/-! ### Lemmas about the dummy search -/

theorem mem_scanPosition {coords : RdP} {dl : Option ℚ} {ex : Option Antenna}
    {l : List Antenna} {p : ℚ × Antenna} (h : p ∈ scanPosition coords dl ex l) :
    p.1 = sqDist coords p.2.coords ∧ limitExceeded dl p.1 = false ∧ p.2 ∈ l := by
  induction l with
  | nil => simp [scanPosition] at h
  | cons a rest ih =>
    simp only [scanPosition] at h
    split at h
    · cases h
    · rename_i hlim
      split at h
      · obtain ⟨h1, h2, h3⟩ := ih h
        exact ⟨h1, h2, List.mem_cons_of_mem _ h3⟩
      · rcases List.mem_cons.mp h with h | h
        · subst h
          exact ⟨rfl, by simpa using hlim, List.mem_cons_self _ _⟩
        · obtain ⟨h1, h2, h3⟩ := ih h
          exact ⟨h1, h2, List.mem_cons_of_mem _ h3⟩

theorem mem_scanColumn {coords : RdP} {dl : Option ℚ} {ex : Option Antenna}
    {col : List (List Antenna)} {yIdx : ℤ} {p : ℚ × Antenna}
    (h : p ∈ scanColumn coords dl ex col yIdx) :
    p.1 = sqDist coords p.2.coords ∧ limitExceeded dl p.1 = false := by
  rw [scanColumn, List.mem_flatMap] at h
  rcases h with ⟨y, _, hmem⟩
  exact ⟨(mem_scanPosition hmem).1, (mem_scanPosition hmem).2.1⟩

theorem mem_scanColumns {coords : RdP} {dl : Option ℚ} {ex : Option Antenna}
    {grid : List (List (List Antenna))} {yIdx : ℤ} {xs : List ℤ} {p : ℚ × Antenna}
    (h : p ∈ scanColumns coords dl ex grid yIdx xs) :
    p.1 = sqDist coords p.2.coords ∧ limitExceeded dl p.1 = false := by
  induction xs with
  | nil => simp [scanColumns] at h
  | cons x rest ih =>
    simp only [scanColumns] at h
    split at h
    · cases h
    · rw [List.mem_append] at h
      rcases h with h | h
      · exact mem_scanColumn h
      · exact ih h

theorem mem_insertByKey {α : Type} {key : α → ℚ} {x y : α} {l : List α}
    (h : x ∈ insertByKey key y l) : x = y ∨ x ∈ l := by
  induction l with
  | nil => simpa [insertByKey] using h
  | cons a rest ih =>
    simp only [insertByKey] at h
    split at h
    · rcases List.mem_cons.mp h with h | h
      · exact Or.inr (by simp [h])
      · rcases ih h with h' | h'
        · exact Or.inl h'
        · exact Or.inr (List.mem_cons_of_mem _ h')
    · rcases List.mem_cons.mp h with h | h
      · exact Or.inl h
      · exact Or.inr h

theorem mem_sortByKey {α : Type} {key : α → ℚ} {x : α} {l : List α}
    (h : x ∈ sortByKey key l) : x ∈ l := by
  induction l with
  | nil => simp [sortByKey] at h
  | cons a rest ih =>
    simp only [sortByKey] at h
    rcases mem_insertByKey h with h' | h'
    · simp [h']
    · exact List.mem_cons_of_mem _ (ih h')

theorem mem_takeOpt {α : Type} {o : Option ℕ} {x : α} {l : List α}
    (h : x ∈ takeOpt o l) : x ∈ l := by
  cases o with
  | none => exact h
  | some k => exact List.mem_of_mem_take h

/-- Every antenna returned by the dummy search under a distance limit
is within the (inclusive, squared) limit. -/
theorem dummySearch_within_limit {nx ny per : ℕ} {azi : ℕ → ℕ → ℤ} {coords : RdP}
    {L : ℚ} {dLower : Option ℚ} {cl : Option ℕ} {ex : Option Antenna} {a : Antenna}
    (h : a ∈ dummySearch nx ny per azi coords (some L) dLower cl ex) :
    sqDist coords a.coords ≤ L ^ 2 := by
  rw [dummySearch] at h
  have h' := mem_takeOpt h
  rw [List.mem_map] at h'
  rcases h' with ⟨p, hp, rfl⟩
  have hm := mem_scanColumns (mem_sortByKey hp)
  have hnot : ¬ (L ^ 2 < p.1) := by simpa [limitExceeded] using hm.2
  rw [hm.1] at hnot
  exact le_of_not_lt hnot

end Cellsite

namespace Cellsite

/-! ### C1: grid search vs. linear scan

The rational arithmetic of the embedded algorithms is evaluated inside
concrete theorems below, so the core `Rat` operations must be
reducible. -/

unseal Rat.add Rat.sub Rat.mul Rat.inv

/-- C1: the grid-index search is claimed to return, for every database,
query point, distance limit, count limit and exclusion, exactly what an
exhaustive linear scan returns (same set, ascending distance,
truncated). This fails: on a 3×1 grid with the query point at
(100300, 100000) and limit 400, the alternating column traversal breaks
at the far column x = 101000 (distance 700) before ever visiting the
near column x = 100000 (distance 300), so `search` returns 1 antenna
while the linear scan returns 2. -/
theorem dummySearch_misses_antenna_within_limit :
    (dummySearch 3 1 1 (fun _ _ => 0) ⟨100300, 100000⟩ (some 400) none none none).length
        = 1 ∧
    (linearScan 3 1 1 (fun _ _ => 0) ⟨100300, 100000⟩ (some 400) none none).length = 2 ∧
    dummySearch 3 1 1 (fun _ _ => 0) ⟨100300, 100000⟩ (some 400) none none none ≠
      linearScan 3 1 1 (fun _ _ => 0) ⟨100300, 100000⟩ (some 400) none none := by
  decide

end Cellsite

namespace Cellsite

unseal Rat.add Rat.sub Rat.mul Rat.inv

/-- C6 counterexample: `distance_limit_m` is claimed to be an exclusive
upper bound, and `distance_lower_limit_m` a strict lower bound in both
backends. In the grid backend an antenna at distance exactly 500 from
the query point is returned under limit 500 (the bound is inclusive),
and passing a lower limit of 100 changes nothing: the antenna at
distance 0 is still returned (the parameter is accepted but never
read). -/
theorem distance_bounds_counterexample :
    (∃ a ∈ dummySearch 2 1 1 (fun _ _ => 0) ⟨100000, 100000⟩ (some 500) none none none,
        sqDist ⟨100000, 100000⟩ a.coords = 500 ^ 2) ∧
    dummySearch 2 1 1 (fun _ _ => 0) ⟨100000, 100000⟩ (some 500) (some 100) none none =
      dummySearch 2 1 1 (fun _ _ => 0) ⟨100000, 100000⟩ (some 500) none none none ∧
    (∃ a ∈ dummySearch 2 1 1 (fun _ _ => 0) ⟨100000, 100000⟩ (some 500) (some 100) none none,
        sqDist ⟨100000, 100000⟩ a.coords ≤ 100 ^ 2) := by
  decide

end Cellsite

namespace Cellsite

/-! ## The relational backend, `PgDatabase`

The `antenna_light` table and the SQL fragments `PgDatabase` appends to
its accumulated `qwhere`/`qargs` lists. Every constructor below is one
of the strings the source can append; the evaluator gives those
fragments their SQL semantics. -/

/-- One stored row of the `antenna_light` table (timestamps in seconds,
grid position as rationals). Nullable columns are `Option`. -/
structure Row where
  date_start : Option ℤ := none
  date_end : Option ℤ := none
  radio : Option String := none
  mcc : ℤ := 0
  mnc : ℤ := 0
  lac : Option ℤ := none
  ci : Option ℤ := none
  eci : Option ℤ := none
  rdx : ℚ := 0
  rdy : ℚ := 0
  azimuth : Option ℤ := none
deriving DecidableEq, Repr

/-- A value passed for a `%s` placeholder. -/
inductive SqlArg
  | ts (t : ℤ)
  | str (s : String)
deriving DecidableEq, Repr

/-- An atomic condition of `_build_cell_identity_query`: `radio = %s`
(one placeholder) or a literal `field = value` comparison. -/
inductive IdCond
  | radioEq
  | mccEq (v : ℤ)
  | mncEq (v : ℤ)
  | lacEq (v : ℤ)
  | ciEq (v : ℤ)
  | eciEq (v : ℤ)
deriving DecidableEq, Repr

/-- Number of `%s` placeholders of an atomic identity condition. -/
def IdCond.params : IdCond → ℕ
  | .radioEq => 1
  | _ => 0

/-- SQL semantics of one atomic identity condition on one row, given
the placeholder values it consumes. An `=` comparison against a NULL
column is not true (the row is filtered out). -/
def IdCond.evalOne : IdCond → List SqlArg → Row → Bool
  | .radioEq, [.str s], r => r.radio = some s
  | .radioEq, _, _ => false
  | .mccEq v, _, r => r.mcc = v
  | .mncEq v, _, r => r.mnc = v
  | .lacEq v, _, r => r.lac = some v
  | .ciEq v, _, r => r.ci = some v
  | .eciEq v, _, r => r.eci = some v

/-- Evaluate a conjunction of identity conditions, distributing the
placeholder values positionally. -/
def evalIdConds : List IdCond → List SqlArg → Row → Bool
  | [], _, _ => true
  | c :: cs, args, r =>
    c.evalOne (args.take c.params) r && evalIdConds cs (args.drop c.params) r

/-- One element of `PgDatabase._qwhere`: each constructor is one of the
strings the source appends.
* `tempBoth` — `"(date_start is NULL OR %s >= date_start) AND
  (date_end is NULL OR %s < date_end)"` (from `get`; two placeholders);
* `tempStart`/`tempEnd` — the two halves appended separately by
  `search`;
* `dwithin`/`notDwithin` — `ST_DWithin(rd, 'POINT(x y)', d)` and its
  negation, with the coordinates and distance interpolated literally;
* `radioOr n` — `"(" + " OR ".join(["radio = %s"] …) + ")"` with `n`
  placeholders (the source always joins a one-element list, so it
  always appends `radioOr 1`);
* `mccEqW`/`mncEqW` — literal `mcc = v` / `mnc = v`;
* `idConj cs` — the AND-joined result of `_build_cell_identity_query`
  appended as a single element (from `get`);
* `notConj cs` — `NOT (…)` around such a result (from `exclude`). -/
inductive SqlWhere
  | tempBoth
  | tempStart
  | tempEnd
  | dwithin (x y d : ℚ)
  | notDwithin (x y d : ℚ)
  | radioOr (n : ℕ)
  | mccEqW (v : ℤ)
  | mncEqW (v : ℤ)
  | idConj (cs : List IdCond)
  | notConj (cs : List IdCond)
deriving DecidableEq, Repr

/-- Number of `%s` placeholders in one `qwhere` element. -/
def SqlWhere.params : SqlWhere → ℕ
  | .tempBoth => 2
  | .tempStart => 1
  | .tempEnd => 1
  | .radioOr n => n
  | .idConj cs => (cs.map IdCond.params).sum
  | .notConj cs => (cs.map IdCond.params).sum
  | _ => 0

/-- A syntactically valid `qwhere` element: an AND-join of zero
identity conditions would yield the empty string and break the
assembled SQL statement. -/
def SqlWhere.wf : SqlWhere → Bool
  | .idConj cs => !cs.isEmpty
  | .notConj cs => !cs.isEmpty
  | _ => true

/-- `date_start is NULL OR t >= date_start` for a placeholder value. -/
def startOk (a : SqlArg) (r : Row) : Bool :=
  match r.date_start with
  | none => true
  | some ds => match a with
    | .ts t => decide (ds ≤ t)
    | _ => false

/-- `date_end is NULL OR t < date_end` for a placeholder value. -/
def endOk (a : SqlArg) (r : Row) : Bool :=
  match r.date_end with
  | none => true
  | some de => match a with
    | .ts t => decide (t < de)
    | _ => false

/-- `ST_DWithin(rd, point, d)`: the stored position lies within
(inclusive) distance `d` of the point; false for a negative `d`.
Squared-distance representation as in `sqDist`. -/
def dwithinB (x y d : ℚ) (r : Row) : Bool :=
  decide (0 ≤ d) && decide (sqDist ⟨x, y⟩ ⟨r.rdx, r.rdy⟩ ≤ d ^ 2)

/-- SQL semantics of one `qwhere` element on one row, given the
placeholder values it consumes. (`NOT` over the identity conditions is
modelled two-valued; the claims exercise it only on non-NULL
comparisons.) -/
def SqlWhere.evalOne : SqlWhere → List SqlArg → Row → Bool
  | .tempBoth, [a, b], r => startOk a r && endOk b r
  | .tempBoth, _, _ => false
  | .tempStart, [a], r => startOk a r
  | .tempStart, _, _ => false
  | .tempEnd, [a], r => endOk a r
  | .tempEnd, _, _ => false
  | .dwithin x y d, _, r => dwithinB x y d r
  | .notDwithin x y d, _, r => !dwithinB x y d r
  | .radioOr _, args, r => args.any fun a =>
      match a with
      | .str s => r.radio = some s
      | _ => false
  | .mccEqW v, _, r => r.mcc = v
  | .mncEqW v, _, r => r.mnc = v
  | .idConj cs, args, r => evalIdConds cs args r
  | .notConj cs, args, r => !evalIdConds cs args r

/-- Evaluate an accumulated `qwhere` list (an AND of its elements) on
one row, distributing the parameter list positionally. -/
def evalWhere : List SqlWhere → List SqlArg → Row → Bool
  | [], _, _ => true
  | w :: ws, args, r =>
    w.evalOne (args.take w.params) r && evalWhere ws (args.drop w.params) r

/-- Total number of placeholders of a `qwhere` list. -/
def whereParams (ws : List SqlWhere) : ℕ := (ws.map SqlWhere.params).sum

/-- Execute the WHERE part of an accumulated query against a table.
The database driver substitutes the parameter list into the statement
once: a query whose placeholder count differs from its parameter
count, or whose text is malformed, fails without returning rows. -/
def runFilter (ws : List SqlWhere) (args : List SqlArg) (table : List Row) :
    Option (List Row) :=
  if (ws.all SqlWhere.wf) && (whereParams ws == args.length) then
    some (table.filter (evalWhere ws args))
  else none

end Cellsite

namespace Cellsite

/-- Modelled from the spec: the resolved antenna record
(`cellsite.properties.Properties`, absent from `src/`), with the three
fields `_build_antenna` fills in: the grid position (the source passes
it under the keyword `wgs84`), the azimuth and the owning identity. -/
structure Properties where
  wgs84 : RdP
  azimuth_degrees : Option ℤ
  cell : CellIdentity
deriving DecidableEq, Repr

/-- The four duplicate policies of `celldb.duplicate_policy`. -/
inductive DupPolicy
  | exception
  | warn
  | takeFirst
  | drop
deriving DecidableEq, Repr

/-- Apply a duplicate policy to the candidate list, as
`self._on_duplicate(ci, results)`. The outcome pairs the returned
record with a flag recording whether a warning was emitted;
`exception` raises a `ValueError`. -/
def applyPolicy (p : DupPolicy) (ci : CellIdentity) (results : List Properties) :
    Except String (Option Properties × Bool) :=
  match p with
  | .exception =>
      let _ := ci
      .error "duplicate cell id (not allowed by current policy)"
  | .warn => .ok (results.head?, true)
  | .takeFirst => .ok (results.head?, false)
  | .drop => .ok (none, false)

/-- The accumulated `ORDER BY` clause: none, `ORDER BY RANDOM()`, or
`ORDER BY ST_Distance(rd, point)`. -/
inductive SqlOrder
  | noOrder
  | randomOrder
  | distOrder (x y : ℚ)
deriving DecidableEq, Repr

/-- The accumulated builder state of a `PgDatabase` instance: the
connection handle and the accumulated constraint list, parameters,
ordering and count limit, plus the configured duplicate policy. -/
structure PgState where
  con : ℕ
  qwhere : List SqlWhere := []
  qargs : List SqlArg := []
  qorder : SqlOrder := .noOrder
  count_limit : Option ℤ := none
  on_duplicate : DupPolicy := .warn
deriving DecidableEq, Repr

/-- The field accessors shared by both identity variants. -/
def CellIdentity.radioOf : CellIdentity → Option String
  | .cgi r _ _ _ _ _ => r
  | .lte r _ _ _ => r

def CellIdentity.mccOf : CellIdentity → Option ℤ
  | .cgi _ m _ _ _ _ => m
  | .lte _ m _ _ => m

def CellIdentity.mncOf : CellIdentity → Option ℤ
  | .cgi _ _ m _ _ _ => m
  | .lte _ _ m _ => m

/-- `_build_cell_identity_query(ci)`: the conjunction of conditions for
the set fields of the identity (radio as a placeholder, the rest as
literals; a generic identity contributes lac/ci, an LTE identity
contributes eci), together with the placeholder values. -/
def buildCellIdentityQuery (ci : CellIdentity) : List IdCond × List SqlArg :=
  let head : List IdCond :=
    (match ci.radioOf with | some _ => [IdCond.radioEq] | none => []) ++
    (match ci.mccOf with | some v => [IdCond.mccEq v] | none => []) ++
    (match ci.mncOf with | some v => [IdCond.mncEq v] | none => [])
  let tail : List IdCond :=
    match ci with
    | .cgi _ _ _ lac cci _ =>
        (match lac with | some v => [IdCond.lacEq v] | none => []) ++
        (match cci with | some v => [IdCond.ciEq v] | none => [])
    | .lte _ _ _ eci =>
        match eci with | some v => [IdCond.eciEq v] | none => []
  (head ++ tail,
   match ci.radioOf with | some s => [SqlArg.str s] | none => [])

/-! ### Row decoding (`_build_antenna`) -/

/-- A value of one selected column, as handed to `_build_antenna`. -/
inductive Val
  | vnull
  | vint (z : ℤ)
  | vstr (s : String)
  | vts (t : ℤ)
  | vq (q : ℚ)
deriving DecidableEq, Repr

def optIntV : Option ℤ → Val
  | none => .vnull
  | some z => .vint z

def optStrV : Option String → Val
  | none => .vnull
  | some s => .vstr s

def optTsV : Option ℤ → Val
  | none => .vnull
  | some t => .vts t

def Val.toOptInt : Val → Option ℤ
  | .vint z => some z
  | _ => none

def Val.toQ : Val → ℚ
  | .vq q => q
  | _ => 0

/-- The column list of the SELECT issued by `PgDatabase.get`:
`date_start, date_end, radio, mcc, mnc, lac, ci, eci, ST_X(rd),
ST_Y(rd), azimuth` — 11 columns. -/
def selectCols (r : Row) : List Val :=
  [optTsV r.date_start, optTsV r.date_end, optStrV r.radio, .vint r.mcc,
   .vint r.mnc, optIntV r.lac, optIntV r.ci, optIntV r.eci, .vq r.rdx,
   .vq r.rdy, optIntV r.azimuth]

/-- The column list of the SELECT issued by `PgDatabase.__iter__`:
`date_start, date_end, radio, mcc, mnc, lac, ci, ST_X(rd), ST_Y(rd),
azimuth` — 10 columns; unlike `get`'s SELECT it does not include
`eci`. -/
def iterCols (r : Row) : List Val :=
  [optTsV r.date_start, optTsV r.date_end, optStrV r.radio, .vint r.mcc,
   .vint r.mnc, optIntV r.lac, optIntV r.ci, .vq r.rdx, .vq r.rdy,
   optIntV r.azimuth]

/-- `_build_antenna(row)`: unpack the 11 selected values (a row of any
other width raises a `ValueError`), build the identity variant for the
row's radio technology (an unrecognized radio raises), and assemble the
record. -/
def buildAntennaRow : List Val → Except String Properties
  | [_ds, _de, radio, mcc, mnc, lac, ci, eci, rdx, rdy, azi] =>
    let mk := fun (cid : CellIdentity) =>
      Properties.mk ⟨rdx.toQ, rdy.toQ⟩ azi.toOptInt cid
    match radio with
    | .vstr "GSM" =>
        .ok (mk (.cgi (some "GSM") mcc.toOptInt mnc.toOptInt lac.toOptInt
          ci.toOptInt none))
    | .vstr "UMTS" =>
        .ok (mk (.cgi (some "UMTS") mcc.toOptInt mnc.toOptInt lac.toOptInt
          ci.toOptInt none))
    | .vstr "LTE" =>
        .ok (mk (.lte (some "LTE") mcc.toOptInt mnc.toOptInt eci.toOptInt))
    | .vnull =>
        .ok (mk (.cgi none mcc.toOptInt mnc.toOptInt lac.toOptInt ci.toOptInt
          eci.toOptInt))
    | _ => .error "unrecognized radio type"
  | _ => .error "ValueError: not enough values to unpack"

end Cellsite

namespace Cellsite

/-! ### `PgDatabase.get` -/

/-- The `date` argument of `get`: a plain calendar date or a full
datetime (`day` counts days, `tod` is the time of day in seconds). -/
inductive PyDateArg
  | date (day : ℤ)
  | datetime (day : ℤ) (tod : ℕ)
deriving DecidableEq, Repr

/-- The timestamp value (in seconds) the argument itself denotes. -/
def PyDateArg.rawTs : PyDateArg → ℤ
  | .date d => d * 86400
  | .datetime d tod => d * 86400 + tod

/-- The timestamp `get` actually queries with. Since
`datetime.datetime` is a subclass of `datetime.date`, the
`isinstance(date, datetime.date)` test succeeds for both argument
shapes and `datetime.combine(date, min.time())` reduces either to
midnight of its calendar day: the time of day is dropped. -/
def normalizeGetDate : PyDateArg → ℤ
  | .date d => d * 86400
  | .datetime d _ => d * 86400

/-- The two placeholder values `get` appends for its temporal
constraint (`qargs + [date, date]`). -/
def getDateArgs (d : PyDateArg) : List SqlArg :=
  [.ts (normalizeGetDate d), .ts (normalizeGetDate d)]

/-- The WHERE list assembled by `get`: the accumulated constraints,
then the temporal-validity constraint, then the identity constraints
of `_build_cell_identity_query`. -/
def pgGetWhere (st : PgState) (ci : CellIdentity) : List SqlWhere :=
  st.qwhere ++ [.tempBoth, .idConj (buildCellIdentityQuery ci).1]

/-- The parameter list assembled by `get`. -/
def pgGetArgs (st : PgState) (d : PyDateArg) (ci : CellIdentity) : List SqlArg :=
  st.qargs ++ getDateArgs d ++ (buildCellIdentityQuery ci).2

/-- `PgDatabase.get(date, ci)` against a table: run the assembled
query, decode every matching row with `_build_antenna`, then return
none on zero candidates, the record itself on one, and the duplicate
policy's outcome on more. -/
def pgGet (st : PgState) (table : List Row) (d : PyDateArg) (ci : CellIdentity) :
    Except String (Option Properties × Bool) :=
  match runFilter (pgGetWhere st ci) (pgGetArgs st d ci) table with
  | none => .error "query failed"
  | some rows =>
    match rows.mapM (fun r => buildAntennaRow (selectCols r)) with
    | .error e => .error e
    | .ok results =>
      if results.length = 0 then .ok (none, false)
      else if results.length > 1 then applyPolicy st.on_duplicate ci results
      else .ok (results.head?, false)

/-! ### `PgDatabase.search` -/

/-- The `radio` argument: `search` accepts a single string (wrapped
into a one-element list) or a collection of strings. -/
inductive RadioArg
  | one (s : String)
  | many (l : List String)
deriving DecidableEq, Repr

def RadioArg.toList : RadioArg → List String
  | .one s => [s]
  | .many l => l

/-- The `exclude` argument: a single identity or a list of them. -/
inductive ExcludeArg
  | one (ci : CellIdentity)
  | many (l : List CellIdentity)
deriving DecidableEq, Repr

def ExcludeArg.toList : ExcludeArg → List CellIdentity
  | .one ci => [ci]
  | .many l => l

/-- The keyword arguments of `PgDatabase.search`, with the source's
defaults (`count_limit=10000`, `random_order=False`); `none` models an
argument passed as `None`. -/
structure SearchArgs where
  coords : Option RdP := none
  distance_limit_m : Option ℚ := none
  distance_lower_limit_m : Option ℚ := none
  date : Option ℤ := none
  radio : Option RadioArg := none
  mcc : Option ℤ := none
  mnc : Option ℤ := none
  count_limit : Option ℤ := some 10000
  random_order : Option Bool := some false
  exclude : Option ExcludeArg := none
deriving DecidableEq, Repr

/-- The constraints the `exclude` loop appends, one `NOT (…)` per
excluded identity. -/
def excludeWhere : List CellIdentity → List SqlWhere
  | [] => []
  | ci :: rest => .notConj (buildCellIdentityQuery ci).1 :: excludeWhere rest

/-- The placeholder values the `exclude` loop appends. -/
def excludeArgs : List CellIdentity → List SqlArg
  | [] => []
  | ci :: rest => (buildCellIdentityQuery ci).2 ++ excludeArgs rest

/-- The part of `search` after the coordinate block: appends the
temporal, radio, mcc/mnc and exclusion constraints to the given
lists, resolves the count limit and the ordering, and builds the new
instance. The radio block joins a *one-element* list of
`"radio = %s"` fragments — `radioOr 1` — while extending the
parameters with the whole radio collection. -/
def searchRest (st : PgState) (a : SearchArgs) (qwhere0 : List SqlWhere)
    (qargs0 : List SqlArg) (pOpt : Option RdP) : PgState :=
  let qw1 := qwhere0 ++ (match a.date with
    | some _ => [SqlWhere.tempStart, SqlWhere.tempEnd]
    | none => [])
  let qa1 := qargs0 ++ (match a.date with
    | some t => [SqlArg.ts t, SqlArg.ts t]
    | none => [])
  let qw2 := qw1 ++ (match a.radio with
    | some _ => [SqlWhere.radioOr 1]
    | none => [])
  let qa2 := qa1 ++ (match a.radio with
    | some ra => ra.toList.map SqlArg.str
    | none => [])
  let qw3 := qw2 ++ (match a.mcc with
    | some v => [SqlWhere.mccEqW v]
    | none => [])
  let qw4 := qw3 ++ (match a.mnc with
    | some v => [SqlWhere.mncEqW v]
    | none => [])
  let qw5 := qw4 ++ (match a.exclude with
    | some e => excludeWhere e.toList
    | none => [])
  let qa3 := qa2 ++ (match a.exclude with
    | some e => excludeArgs e.toList
    | none => [])
  let cl := match a.count_limit with
    | some k => some k
    | none => st.count_limit
  let qorder := match a.random_order with
    | none => st.qorder
    | some b =>
      if b then .randomOrder
      else match pOpt with
        | some p => .distOrder p.x p.y
        | none => st.qorder
  { con := st.con, qwhere := qw5, qargs := qa3, qorder := qorder,
    count_limit := cl, on_duplicate := st.on_duplicate }

/-- `PgDatabase.search(...)`: when coordinates are given, a missing
distance limit fails the assertion before anything is built; otherwise
the spatial constraints (inclusive `ST_DWithin` upper bound, negated
`ST_DWithin` lower bound) are appended, then the rest. The receiver's
own lists are copied, never mutated, and a new instance is returned. -/
def pgSearch (st : PgState) (a : SearchArgs) : Except String PgState :=
  match a.coords with
  | some p =>
    match a.distance_limit_m with
    | none => .error "search for coords without distance limit"
    | some dl =>
      let qw := (st.qwhere ++ [SqlWhere.dwithin p.x p.y dl]) ++
        (match a.distance_lower_limit_m with
          | some lo => [SqlWhere.notDwithin p.x p.y lo]
          | none => [])
      .ok (searchRest st a qw st.qargs (some p))
  | none => .ok (searchRest st a st.qwhere st.qargs none)

/-! ### Iterating a search view (`__iter__` / `__next__`) -/

/-- `ORDER BY` semantics: distance ordering sorts ascending by the
distance from the stored position to the point (stable here; ties have
no guaranteed order in SQL, which no claim depends on). Random
ordering permutes at the storage layer; it is modelled as the stored
order. -/
def orderRows : SqlOrder → List Row → List Row
  | .noOrder, rs => rs
  | .randomOrder, rs => rs
  | .distOrder x y, rs =>
    (sortByKey Prod.fst (rs.map fun r => (sqDist ⟨x, y⟩ ⟨r.rdx, r.rdy⟩, r))).map
      Prod.snd

/-- Iterating a `PgDatabase` view within its context manager: execute
the accumulated query with its ordering and `LIMIT`, then decode each
returned row with `_build_antenna`. The SELECT used here is the
10-column list `iterCols`. -/
def pgIterRun (st : PgState) (table : List Row) : Except String (List Properties) :=
  match runFilter st.qwhere st.qargs table with
  | none => .error "query failed"
  | some rows =>
    let rows := orderRows st.qorder rows
    let rows := match st.count_limit with
      | none => rows
      | some k => rows.take k.toNat
    rows.mapM fun r => buildAntennaRow (iterCols r)

end Cellsite

deriving instance DecidableEq for Except

namespace Cellsite

/-! ### C2 / C10: temporal matching in `get` -/

/-- The claim side of C2: the spec's temporal-match rule evaluated at
an arbitrary timestamp `t` — `(date_start unset or t ≥ date_start) and
(date_end unset or t < date_end)`. -/
def specTemporalMatch (t : ℤ) (r : Row) : Bool :=
  (match r.date_start with
    | none => true
    | some ds => decide (ds ≤ t)) &&
  (match r.date_end with
    | none => true
    | some de => decide (t < de))

/-- A fresh `PgDatabase` over connection 0 with the default
configuration. -/
def pgFresh : PgState := { con := 0 }

/-- An identity querying by mcc only. -/
def ciMcc : CellIdentity := .cgi none (some 204) none none none none

/-- A row whose validity starts at timestamp 1800 (00:30 of day 0). -/
def rowLateStart : Row := { date_start := some 1800, mcc := 204 }

/-- C2 counterexample: the claim evaluates the interval rule at "the
timestamp passed by the caller". Calling `get` at 01:00 of day 0
(raw timestamp 3600) on a record valid from 00:30 (timestamp 1800):
the rule at the caller's timestamp says the record matches, and its
identity constraints match too, yet `get` returns none — it evaluates
the rule at midnight of the argument's day (timestamp 0), not at the
caller's timestamp. -/
theorem get_temporal_raw_timestamp_counterexample :
    specTemporalMatch (PyDateArg.rawTs (.datetime 0 3600)) rowLateStart = true ∧
    evalIdConds (buildCellIdentityQuery ciMcc).1 (buildCellIdentityQuery ciMcc).2
      rowLateStart = true ∧
    pgGet pgFresh [rowLateStart] (.datetime 0 3600) ciMcc = .ok (none, false) := by
  decide

/-- C2 (amended): `get` treats a record as matching temporally iff
`(date_start is unset or t >= date_start) and (date_end is unset or
t < date_end)` — where `t` is the caller's argument reduced to
midnight of its calendar day (`normalizeGetDate`), not the raw
timestamp. The temporal constraint evaluated here (`tempBoth` with
`getDateArgs`) is by construction the one `pgGet` appends
(`pgGetWhere`/`pgGetArgs`). -/
theorem get_temporal_match_rule (d : PyDateArg) (r : Row) :
    (SqlWhere.evalOne .tempBoth (getDateArgs d) r = true ↔
      ((r.date_start = none ∨
          ∃ ds, r.date_start = some ds ∧ ds ≤ normalizeGetDate d) ∧
       (r.date_end = none ∨
          ∃ de, r.date_end = some de ∧ normalizeGetDate d < de))) ∧
    SqlWhere.evalOne .tempBoth (getDateArgs d) r =
      specTemporalMatch (normalizeGetDate d) r := by
  constructor
  · cases hs : r.date_start with
    | none =>
      cases he : r.date_end with
      | none => simp [SqlWhere.evalOne, getDateArgs, startOk, endOk, hs, he]
      | some de => simp [SqlWhere.evalOne, getDateArgs, startOk, endOk, hs, he]
    | some ds =>
      cases he : r.date_end with
      | none => simp [SqlWhere.evalOne, getDateArgs, startOk, endOk, hs, he]
      | some de => simp [SqlWhere.evalOne, getDateArgs, startOk, endOk, hs, he]
  · cases hs : r.date_start <;> cases he : r.date_end <;>
      simp [SqlWhere.evalOne, getDateArgs, startOk, endOk, specTemporalMatch, hs, he]

/-- C10: whatever value is passed as the `date` argument of `get` — a
calendar date or a datetime with any time of day — the lookup is
evaluated at midnight of that value's calendar day, so the time-of-day
component never influences the result. -/
theorem get_date_reduced_to_midnight (st : PgState) (table : List Row) (day : ℤ)
    (tod : ℕ) (ci : CellIdentity) :
    pgGet st table (.datetime day tod) ci = pgGet st table (.datetime day 0) ci ∧
    pgGet st table (.datetime day tod) ci = pgGet st table (.date day) ci := by
  exact ⟨rfl, rfl⟩

/-! ### C3: duplicate policy dispatch in `get` -/

/-- C3: with the query and decoding fixed, the candidate count decides
the outcome of `get`: zero candidates yield none under every policy,
one candidate is returned regardless of the policy, and with two or
more the configured policy decides — `exception` raises, `take_first`
returns the first candidate, `warn` returns the first candidate with a
warning, `drop` returns none. -/
theorem get_duplicate_policy_behavior (st : PgState) (table : List Row)
    (d : PyDateArg) (ci : CellIdentity) (rows : List Row) (cands : List Properties)
    (hrun : runFilter (pgGetWhere st ci) (pgGetArgs st d ci) table = some rows)
    (hdec : rows.mapM (fun r => buildAntennaRow (selectCols r)) = .ok cands) :
    (cands = [] →
      ∀ pol, pgGet { st with on_duplicate := pol } table d ci = .ok (none, false)) ∧
    (∀ a, cands = [a] →
      ∀ pol, pgGet { st with on_duplicate := pol } table d ci = .ok (some a, false)) ∧
    (2 ≤ cands.length →
      pgGet { st with on_duplicate := .exception } table d ci =
        .error "duplicate cell id (not allowed by current policy)" ∧
      pgGet { st with on_duplicate := .takeFirst } table d ci =
        .ok (cands.head?, false) ∧
      pgGet { st with on_duplicate := .warn } table d ci = .ok (cands.head?, true) ∧
      pgGet { st with on_duplicate := .drop } table d ci = .ok (none, false)) := by
  have hw : ∀ pol, pgGetWhere { st with on_duplicate := pol } ci = pgGetWhere st ci :=
    fun _ => rfl
  have ha : ∀ pol, pgGetArgs { st with on_duplicate := pol } d ci = pgGetArgs st d ci :=
    fun _ => rfl
  have key : ∀ pol, pgGet { st with on_duplicate := pol } table d ci =
      (if cands.length = 0 then Except.ok (none, false)
       else if cands.length > 1 then applyPolicy pol ci cands
       else Except.ok (cands.head?, false)) := by
    intro pol
    simp only [pgGet, hw, ha, hrun, hdec]
  refine ⟨?_, ?_, ?_⟩
  · rintro rfl pol
    simpa using key pol
  · rintro a rfl pol
    simpa using key pol
  · intro hlen
    have h0 : ¬ cands.length = 0 := by omega
    have h1 : cands.length > 1 := by omega
    refine ⟨?_, ?_, ?_, ?_⟩ <;>
      simp [key, h0, h1, applyPolicy]

end Cellsite

namespace Cellsite

unseal Rat.add Rat.sub Rat.mul Rat.inv

/-- The record decoded from `rowLateStart` by `_build_antenna`. -/
def dupProp : Properties :=
  ⟨⟨0, 0⟩, none, .cgi none (some 204) (some 0) none none none⟩

/-- Witness for C3: on a table holding the same matching record twice,
the `exception` policy raises and the `drop` policy returns none. -/
theorem get_duplicate_policy_behavior_witness :
    pgGet { pgFresh with on_duplicate := .exception } [rowLateStart, rowLateStart]
        (.date 1) ciMcc = .error "duplicate cell id (not allowed by current policy)" ∧
    pgGet { pgFresh with on_duplicate := .drop } [rowLateStart, rowLateStart]
        (.date 1) ciMcc = .ok (none, false) := by
  have h := (get_duplicate_policy_behavior pgFresh [rowLateStart, rowLateStart]
      (.date 1) ciMcc [rowLateStart, rowLateStart] [dupProp, dupProp]
      (by decide) (by decide)).2.2 (by decide)
  exact ⟨h.1, h.2.2.2⟩

/-! ### C5: coordinates require a distance limit -/

/-- C5: whatever else is passed, a `search` call that supplies
coordinates but no distance limit fails the assertion, and a call that
supplies both always succeeds in building the refined view. -/
theorem search_requires_distance_limit (st : PgState) (a : SearchArgs) (p : RdP) :
    pgSearch st { a with coords := some p, distance_limit_m := none } =
      .error "search for coords without distance limit" ∧
    ∀ dl : ℚ, ∃ st',
      pgSearch st { a with coords := some p, distance_limit_m := some dl } = .ok st' :=
  ⟨rfl, fun _ => ⟨_, rfl⟩⟩

/-! ### C4: iterating a search view -/

/-- A GSM row at grid position (3, 4). -/
def rowNear : Row := { radio := some "GSM", rdx := 3, rdy := 4 }

/-- C4: iterating a distance-search view is claimed to yield one
decoded record per matching row in ascending distance order. It cannot:
the SELECT issued by `__iter__` projects 10 columns (`eci` is missing)
while `_build_antenna` unpacks 11 values, so decoding raises a
`ValueError` for every row — here shown for every possible row, and
end-to-end for a freshly built view over a table whose single row
matches the query. -/
theorem iter_decode_always_fails :
    (∀ r : Row,
      buildAntennaRow (iterCols r) = .error "ValueError: not enough values to unpack") ∧
    (pgSearch pgFresh { coords := some ⟨0, 0⟩, distance_limit_m := some 10 }).map
        (fun v => pgIterRun v [rowNear]) =
      .ok (.error "ValueError: not enough values to unpack") := by
  exact ⟨fun r => rfl, by decide⟩

/-! ### C7: the radio filter -/

def rowGsm : Row := { radio := some "GSM" }

def rowUmts : Row := { radio := some "UMTS" }

/-- C7: for every radio argument, `search` appends a radio clause with
exactly one `%s` placeholder (it joins a one-element list) while
appending one parameter per element of the collection. A one-element
collection therefore works and filters by radio, but for a two-element
collection the placeholder and parameter counts differ and executing
the built view fails instead of filtering by the radio set. -/
theorem radio_filter_placeholder_mismatch :
    (∀ ra : RadioArg,
      (pgSearch pgFresh { radio := some ra }).map PgState.qwhere =
        .ok [.radioOr 1] ∧
      (pgSearch pgFresh { radio := some ra }).map PgState.qargs =
        .ok (ra.toList.map SqlArg.str)) ∧
    (pgSearch pgFresh { radio := some (.many ["GSM", "UMTS"]) }).map
        (fun v => runFilter v.qwhere v.qargs [rowGsm, rowUmts]) = .ok none ∧
    (pgSearch pgFresh { radio := some (.one "GSM") }).map
        (fun v => runFilter v.qwhere v.qargs [rowGsm, rowUmts]) =
      .ok (some [rowGsm]) := by
  refine ⟨fun ra => ⟨rfl, ?_⟩, by decide, by decide⟩
  cases ra <;> simp [pgSearch, searchRest, pgFresh, Except.map, RadioArg.toList]

/-! ### C8: `search` accumulates constraints immutably -/

/-- The constraints one `search` call appends, as a function of its
arguments alone. -/
def searchNewWhere (a : SearchArgs) : List SqlWhere :=
  (match a.coords, a.distance_limit_m with
    | some p, some dl =>
      SqlWhere.dwithin p.x p.y dl ::
        (match a.distance_lower_limit_m with
          | some lo => [SqlWhere.notDwithin p.x p.y lo]
          | none => [])
    | _, _ => []) ++
  ((match a.date with
    | some _ => [SqlWhere.tempStart, SqlWhere.tempEnd]
    | none => []) ++
   ((match a.radio with
    | some _ => [SqlWhere.radioOr 1]
    | none => []) ++
    ((match a.mcc with
    | some v => [SqlWhere.mccEqW v]
    | none => []) ++
     ((match a.mnc with
    | some v => [SqlWhere.mncEqW v]
    | none => []) ++
      (match a.exclude with
    | some e => excludeWhere e.toList
    | none => [])))))

/-- The parameters one `search` call appends, as a function of its
arguments alone. -/
def searchNewArgs (a : SearchArgs) : List SqlArg :=
  (match a.date with
    | some t => [SqlArg.ts t, SqlArg.ts t]
    | none => []) ++
  ((match a.radio with
    | some ra => ra.toList.map SqlArg.str
    | none => []) ++
   (match a.exclude with
    | some e => excludeArgs e.toList
    | none => []))

theorem searchRest_fields (st : PgState) (a : SearchArgs) (qw : List SqlWhere)
    (qa : List SqlArg) (pOpt : Option RdP) :
    (searchRest st a qw qa pOpt).qwhere =
      qw ++ ((match a.date with
        | some _ => [SqlWhere.tempStart, SqlWhere.tempEnd]
        | none => []) ++
       ((match a.radio with
        | some _ => [SqlWhere.radioOr 1]
        | none => []) ++
        ((match a.mcc with
        | some v => [SqlWhere.mccEqW v]
        | none => []) ++
         ((match a.mnc with
        | some v => [SqlWhere.mncEqW v]
        | none => []) ++
          (match a.exclude with
        | some e => excludeWhere e.toList
        | none => []))))) ∧
    (searchRest st a qw qa pOpt).qargs = qa ++ searchNewArgs a ∧
    (searchRest st a qw qa pOpt).con = st.con ∧
    (searchRest st a qw qa pOpt).on_duplicate = st.on_duplicate := by
  refine ⟨?_, ?_, rfl, rfl⟩ <;>
    simp [searchRest, searchNewArgs, List.append_assoc]

/-- C8: every successful `search` call returns a new instance whose
constraint list and parameter list are the receiver's with the newly
supplied constraints appended (an AND-refinement), over the same
connection and duplicate policy; the receiver itself, being a pure
value here as the source's lists are copied, is untouched. -/
theorem search_appends_constraints (st : PgState) (a : SearchArgs) (st' : PgState)
    (h : pgSearch st a = .ok st') :
    st'.qwhere = st.qwhere ++ searchNewWhere a ∧
    st'.qargs = st.qargs ++ searchNewArgs a ∧
    st'.con = st.con ∧ st'.on_duplicate = st.on_duplicate := by
  cases hc : a.coords with
  | none =>
    rw [pgSearch, hc] at h
    injection h with h
    subst h
    obtain ⟨h1, h2, h3, h4⟩ := searchRest_fields st a st.qwhere st.qargs none
    refine ⟨?_, by rw [h2], h3, h4⟩
    rw [h1]
    simp [searchNewWhere, hc]
  | some p =>
    cases hd : a.distance_limit_m with
    | none =>
      rw [pgSearch, hc, hd] at h
      exact absurd h (by simp)
    | some dl =>
      rw [pgSearch, hc, hd] at h
      injection h with h
      subst h
      obtain ⟨h1, h2, h3, h4⟩ := searchRest_fields st a
        ((st.qwhere ++ [SqlWhere.dwithin p.x p.y dl]) ++
          (match a.distance_lower_limit_m with
            | some lo => [SqlWhere.notDwithin p.x p.y lo]
            | none => [])) st.qargs (some p)
      refine ⟨?_, by rw [h2], h3, h4⟩
      rw [h1]
      simp [searchNewWhere, hc, hd, List.append_assoc]

/-- A receiver with accumulated state, for the C8 witness. -/
def stW : PgState :=
  { con := 7, qwhere := [.mccEqW 204], qargs := [.ts 11], qorder := .randomOrder,
    count_limit := some 5, on_duplicate := .drop }

/-- A `search` call with spatial, temporal and radio constraints, for
the C8 witness. -/
def aW : SearchArgs :=
  { coords := some ⟨1, 2⟩, distance_limit_m := some 100,
    distance_lower_limit_m := some 3, date := some 50, radio := some (.one "LTE") }

/-- The view built by the C8 witness call. -/
def stW' : PgState := (pgSearch stW aW).toOption.getD stW

/-- Witness for C8 at a concrete receiver and call. -/
theorem search_appends_constraints_witness :
    stW'.qwhere = stW.qwhere ++ searchNewWhere aW ∧
    stW'.qargs = stW.qargs ++ searchNewArgs aW ∧
    stW'.con = stW.con ∧ stW'.on_duplicate = stW.on_duplicate :=
  search_appends_constraints stW aW stW' (by rfl)

/-! ### C6 (amended): the distance bounds -/

/-- C6 (amended): the upper distance bound is inclusive in both
backends, not exclusive. For the relational backend the two spatial
constraints `search` appends hold of a row iff its distance is `≤` the
upper limit and `>` the lower limit (so only the lower bound is
strict); the grid backend ignores `distance_lower_limit_m` entirely —
its result is invariant in that argument — and every antenna it
returns is within the inclusive upper bound. -/
theorem distance_bounds_amended (x y d lo : ℚ) (r : Row)
    (hd : 0 ≤ d) (hlo : 0 ≤ lo) :
    ((SqlWhere.evalOne (.dwithin x y d) [] r &&
        SqlWhere.evalOne (.notDwithin x y lo) [] r) = true ↔
      (sqDist ⟨x, y⟩ ⟨r.rdx, r.rdy⟩ ≤ d ^ 2 ∧
        lo ^ 2 < sqDist ⟨x, y⟩ ⟨r.rdx, r.rdy⟩)) ∧
    (∀ (nx ny per : ℕ) (azi : ℕ → ℕ → ℤ) (coords : RdP) (dLimit : Option ℚ)
        (lo1 lo2 : Option ℚ) (cl : Option ℕ) (ex : Option Antenna),
      dummySearch nx ny per azi coords dLimit lo1 cl ex =
        dummySearch nx ny per azi coords dLimit lo2 cl ex) ∧
    (∀ (nx ny per : ℕ) (azi : ℕ → ℕ → ℤ) (coords : RdP) (L : ℚ)
        (dLower : Option ℚ) (cl : Option ℕ) (ex : Option Antenna) (a : Antenna),
      a ∈ dummySearch nx ny per azi coords (some L) dLower cl ex →
        sqDist coords a.coords ≤ L ^ 2) := by
  refine ⟨?_, fun _ _ _ _ _ _ _ _ _ _ => rfl,
    fun _ _ _ _ _ _ _ _ _ _ h => dummySearch_within_limit h⟩
  simp [SqlWhere.evalOne, dwithinB, hd, hlo, and_comm]

/-- Witness for the amended C6 at a concrete row and bounds. -/
theorem distance_bounds_amended_witness :
    (0 : ℚ) ≤ 5 ∧ (0 : ℚ) ≤ 1 ∧
    ((SqlWhere.evalOne (.dwithin 0 0 5) [] rowNear &&
        SqlWhere.evalOne (.notDwithin 0 0 1) [] rowNear) = true ↔
      (sqDist ⟨0, 0⟩ ⟨rowNear.rdx, rowNear.rdy⟩ ≤ 5 ^ 2 ∧
        1 ^ 2 < sqDist ⟨0, 0⟩ ⟨rowNear.rdx, rowNear.rdy⟩)) :=
  ⟨by norm_num, by norm_num,
    (distance_bounds_amended 0 0 5 1 rowNear (by norm_num) (by norm_num)).1⟩

end Cellsite

namespace Cellsite

/-! ## CSV import (`csv_import`) -/

/-- A parsed Python float: finite (as a rational) or one of the
non-finite values `nan`/`inf`/`-inf`. -/
inductive PyFloat
  | fin (q : ℚ)
  | nan
  | inf
  | ninf
deriving DecidableEq, Repr

def PyFloat.isFinite : PyFloat → Bool
  | .fin _ => true
  | _ => false

def PyFloat.toQ : PyFloat → ℚ
  | .fin q => q
  | _ => 0

/-- A numeric CSV cell before conversion: the empty cell was turned
into `None` (so `float(None)` raises a `TypeError`), a non-numeric
cell makes `float` raise a `ValueError`, a numeric one parses. -/
inductive NumCell
  | empty
  | nonNumeric (s : String)
  | num (f : PyFloat)
deriving DecidableEq, Repr

/-- `float(cell)` on a longitude/latitude cell. -/
def parseFloatCell : NumCell → Except String PyFloat
  | .empty => .error "TypeError: float() argument must not be None"
  | .nonNumeric _ => .error "ValueError: could not convert string to float"
  | .num f => .ok f

/-- One data row of the import CSV, after the header, with empty cells
already mapped to `none` and the two coordinate cells kept raw for the
`float` conversion. (Rows of a different width would fail unpacking
and be skipped the same way; the claims quantify over well-shaped
rows.) -/
structure CsvRow where
  date_start : Option String := none
  date_end : Option String := none
  radio : Option String := none
  mcc : Option String := none
  mnc : Option String := none
  lac : Option String := none
  ci : Option String := none
  eci : Option String := none
  lon : NumCell := .empty
  lat : NumCell := .empty
  azimuth : Option String := none
deriving DecidableEq, Repr

/-- The VALUES tuple of one successful `INSERT INTO antenna_light`. -/
structure InsertedRow where
  date_start : Option String
  date_end : Option String
  radio : Option String
  mcc : Option String
  mnc : Option String
  lac : Option String
  ci : Option String
  eci : Option String
  x : ℚ
  y : ℚ
  azimuth : Option String
deriving DecidableEq, Repr

/-- Modelled from the spec: the exact geodetic-to-grid transform
(`WgsPoint.rd`, `cellsite.coord` being absent from `src/`). The spec
fixes no formula, and the import claims depend only on the transform
being a total function of the finite coordinates, so the pair itself
stands for the projected point. -/
def wgsToRd (lon lat : ℚ) : ℚ × ℚ := (lon, lat)

/-- The body of the per-row `try` block of `csv_import`: convert the
coordinate cells with `float`, check both for finiteness, check that at
least one of `ci`/`eci` is present, project the position and produce
the inserted tuple; every failure raises out to the per-row handler. -/
def processCsvRow (r : CsvRow) : Except String InsertedRow :=
  match parseFloatCell r.lon with
  | .error e => .error e
  | .ok lonf =>
    match parseFloatCell r.lat with
    | .error e => .error e
    | .ok latf =>
      if !lonf.isFinite then .error "invalid number for longitude"
      else if !latf.isFinite then .error "invalid number for latitude"
      else if r.ci = none ∧ r.eci = none then .error "AssertionError"
      else
        let p := wgsToRd lonf.toQ latf.toQ
        .ok ⟨r.date_start, r.date_end, r.radio, r.mcc, r.mnc, r.lac, r.ci, r.eci,
          p.1, p.2, r.azimuth⟩

/-- The import loop from data row `i` on: each row is processed inside
`try`, a failure is caught, reported as `import error at line {i+2}`
(the CSV line number, counting the header) and the loop continues with
the next row. Returns the inserted tuples and the reported errors. -/
def csvImportGo : ℕ → List CsvRow → List InsertedRow × List (ℕ × String)
  | _, [] => ([], [])
  | i, r :: rest =>
    let acc := csvImportGo (i + 1) rest
    match processCsvRow r with
    | .ok row => (row :: acc.1, acc.2)
    | .error e => (acc.1, (i + 2, e) :: acc.2)

/-- `csv_import(con, flo)` on the data rows after the header. -/
def csvImport (rows : List CsvRow) : List InsertedRow × List (ℕ × String) :=
  csvImportGo 0 rows

theorem csvImportGo_fst (i : ℕ) (rows : List CsvRow) :
    (csvImportGo i rows).1 = rows.filterMap fun r => (processCsvRow r).toOption := by
  induction rows generalizing i with
  | nil => rfl
  | cons a rest ih =>
    rw [csvImportGo]
    cases hp : processCsvRow a <;>
      simp [List.filterMap_cons, hp, Except.toOption, ih (i + 1)]

theorem csvImportGo_report (j : ℕ) (rows : List CsvRow) (i : ℕ) (r : CsvRow)
    (e : String) (hget : rows[i]? = some r) (herr : processCsvRow r = .error e) :
    (j + i + 2, e) ∈ (csvImportGo j rows).2 := by
  induction rows generalizing j i with
  | nil => simp at hget
  | cons a rest ih =>
    cases i with
    | zero =>
      rw [List.getElem?_cons_zero, Option.some_inj] at hget
      subst hget
      simp [csvImportGo, herr]
    | succ k =>
      rw [List.getElem?_cons_succ] at hget
      have hmem := ih (j + 1) k hget
      have harith : j + 1 + k + 2 = j + (k + 1) + 2 := by omega
      rw [harith] at hmem
      rw [csvImportGo]
      cases hp : processCsvRow a <;> simp [hp, hmem]

/-- C9: the import processes rows independently. The inserted tuples
are exactly the per-row successes in order, so a failing row never
prevents later (or earlier) valid rows from being inserted; every
failing row at index `i` is reported (not re-raised) under its CSV
line number `i + 2`; and a row with a non-finite longitude or
latitude, or with neither a legacy cell-id nor an eci, always fails
and is therefore never inserted. -/
theorem csv_import_row_isolation :
    (∀ rows : List CsvRow,
      (csvImport rows).1 = rows.filterMap fun r => (processCsvRow r).toOption) ∧
    (∀ (rows : List CsvRow) (i : ℕ) (r : CsvRow) (e : String),
      rows[i]? = some r → processCsvRow r = .error e →
      (i + 2, e) ∈ (csvImport rows).2) ∧
    (∀ (r : CsvRow) (f g : PyFloat),
      parseFloatCell r.lon = .ok f → parseFloatCell r.lat = .ok g →
      (!f.isFinite || !g.isFinite ||
        (decide (r.ci = none) && decide (r.eci = none))) = true →
      (processCsvRow r).toOption = none) := by
  refine ⟨fun rows => csvImportGo_fst 0 rows, ?_, ?_⟩
  · intro rows i r e hget herr
    have := csvImportGo_report 0 rows i r e hget herr
    simpa [csvImport] using this
  · intro r f g hlon hlat hbad
    simp only [processCsvRow, hlon, hlat]
    cases hf : f.isFinite with
    | false => simp [hf, Except.toOption]
    | true =>
      cases hg : g.isFinite with
      | false => simp [hg, Except.toOption]
      | true =>
        have hce : r.ci = none ∧ r.eci = none := by
          simpa [hf, hg] using hbad
        simp [hf, hg, hce, Except.toOption]

/-- A valid import row. -/
def csvGood : CsvRow := { lon := .num (.fin 4), lat := .num (.fin 52), ci := some "1" }

/-- A row with a non-finite longitude. -/
def csvBad : CsvRow := { lon := .num .nan, lat := .num (.fin 52), ci := some "1" }

/-- Another valid import row. -/
def csvGood2 : CsvRow := { lon := .num (.fin 5), lat := .num (.fin 53), eci := some "2" }

/-- Witness for C9 on a batch with one invalid row between two valid
ones: the bad row fails, is reported at its line number, and the
inserted tuples are exactly the per-row successes. -/
theorem csv_import_row_isolation_witness :
    (csvImport [csvGood, csvBad, csvGood2]).1 =
      [csvGood, csvBad, csvGood2].filterMap (fun r => (processCsvRow r).toOption) ∧
    (1 + 2, "invalid number for longitude") ∈
      (csvImport [csvGood, csvBad, csvGood2]).2 ∧
    (processCsvRow csvBad).toOption = none :=
  ⟨csv_import_row_isolation.1 [csvGood, csvBad, csvGood2],
   csv_import_row_isolation.2.1 [csvGood, csvBad, csvGood2] 1 csvBad
     "invalid number for longitude" (by decide) (by decide),
   csv_import_row_isolation.2.2 csvBad .nan (.fin 52) (by decide) (by decide) (by decide)⟩

end Cellsite
